import Mathlib

/-!
Verification of the building-renovation program (`architecture.cpp`).

The C++ `double` fields are modelled as exact rationals (ℚ); the integer
improvement parameters as ℤ.  Each C++ method becomes an explicit
state-passing function on a `Building` record.
-/

/-- The closed set of `Improvement` variants, each holding its single
scalar parameter exactly as in the C++ classes. -/
inductive Improvement where
  | SolarPanels (panel_area : ℤ)
  | FacadeRenovation (quality_level : ℤ)
  | InsulationUpgrade (insulation_level : ℤ)
  | WindowReplacement (window_count : ℤ)
  | GreenRoof (area : ℚ)
deriving DecidableEq, Repr

/-- The `Building` record: four numeric fields plus the owned renovation
plan, as in the C++ class. -/
structure Building where
  height : ℚ
  cost : ℚ
  energy_efficiency : ℚ
  aesthetic_value : ℚ
  renovation_plan : List Improvement
deriving DecidableEq, Repr

namespace Building

def getHeight (b : Building) : ℚ := b.height

def setHeight (b : Building) (h : ℚ) : Building := { b with height := h }

def getCost (b : Building) : ℚ := b.cost

def setCost (b : Building) (c : ℚ) : Building := { b with cost := c }

def getEfficiency (b : Building) : ℚ := b.energy_efficiency

/-- The efficiency setter clamps its argument to at most `100.0`
(`std::min(e, 100.0)`); there is no lower clamp. -/
def setEfficiency (b : Building) (e : ℚ) : Building :=
  { b with energy_efficiency := min e 100 }

def getAesthetic (b : Building) : ℚ := b.aesthetic_value

def setAesthetic (b : Building) (a : ℚ) : Building :=
  { b with aesthetic_value := a }

end Building

namespace Improvement

/-- Per-variant `apply`, transcribed line by line from the C++
`apply(Building&)` overrides (the decimal literals are exact in ℚ). -/
def apply (i : Improvement) (b : Building) : Building :=
  match i with
  | SolarPanels panel_area =>
      let boost : ℚ := min ((panel_area : ℚ) * 0.02) 1
      let b := b.setEfficiency (b.getEfficiency + boost * 20)
      let b := b.setCost (b.getCost + (panel_area : ℚ) * 100)
      b
  | FacadeRenovation quality_level =>
      let boost : ℚ := min ((quality_level : ℚ) * 0.1) 1
      let b := b.setAesthetic (b.getAesthetic + boost * 15)
      let b := b.setCost (b.getCost + (quality_level : ℚ) * 500)
      b
  | InsulationUpgrade insulation_level =>
      let boost : ℚ := min ((insulation_level : ℚ) * 0.15) 1
      let b := b.setEfficiency (b.getEfficiency + boost * 25)
      let b := b.setCost (b.getCost + (insulation_level : ℚ) * 400)
      b
  | WindowReplacement window_count =>
      let boost : ℚ := min ((window_count : ℚ) * 0.05) 1
      let b := b.setEfficiency (b.getEfficiency + boost * 10)
      let b := b.setAesthetic (b.getAesthetic + boost * 5)
      let b := b.setCost (b.getCost + (window_count : ℚ) * 300)
      b
  | GreenRoof area =>
      let efficiency_boost : ℚ := min (area * 0.03) 1
      let aesthetic_boost : ℚ := min (area * 0.02) 1
      let b := b.setEfficiency (b.getEfficiency + efficiency_boost * 15)
      let b := b.setAesthetic (b.getAesthetic + aesthetic_boost * 10)
      let b := b.setCost (b.getCost + area * 200)
      b

end Improvement

namespace Building

/-- The loop body of `renovate()`: apply each element of the plan list in
order to the evolving building state. -/
def renovateLoop : List Improvement → Building → Building
  | [], b => b
  | i :: rest, b => renovateLoop rest (i.apply b)

/-- The `renovate()` method runs the loop over the building's own plan. -/
def renovate (b : Building) : Building := renovateLoop b.renovation_plan b

end Building

namespace Improvement

/-- Spec-side rendering of the variant table in section 4.1 of the spec,
for comparison with the transcribed `apply`: each variant computes
`boost = min(parameter * rate, 1.0)`, adds `boost * magnitude` to the
listed attribute(s) through the setters, and adds `parameter * unit_cost`
to cost.  Table rows: SolarPanels rate `0.02`, efficiency, magnitude 20,
100/unit; FacadeRenovation `0.10`, aesthetic, 15, 500/unit;
InsulationUpgrade `0.15`, efficiency, 25, 400/unit; WindowReplacement
`0.05`, efficiency +10 and aesthetic +5, 300/unit; GreenRoof rates `0.03`
(efficiency, magnitude 15) and `0.02` (aesthetic, magnitude 10),
200/unit. -/
def applySpecTable (i : Improvement) (b : Building) : Building :=
  match i with
  | SolarPanels p =>
      let boost : ℚ := min ((p : ℚ) * 0.02) 1
      ((b.setEfficiency (b.getEfficiency + boost * 20)).setCost
        ((b.setEfficiency (b.getEfficiency + boost * 20)).getCost + (p : ℚ) * 100))
  | FacadeRenovation p =>
      let boost : ℚ := min ((p : ℚ) * 0.10) 1
      ((b.setAesthetic (b.getAesthetic + boost * 15)).setCost
        ((b.setAesthetic (b.getAesthetic + boost * 15)).getCost + (p : ℚ) * 500))
  | InsulationUpgrade p =>
      let boost : ℚ := min ((p : ℚ) * 0.15) 1
      ((b.setEfficiency (b.getEfficiency + boost * 25)).setCost
        ((b.setEfficiency (b.getEfficiency + boost * 25)).getCost + (p : ℚ) * 400))
  | WindowReplacement p =>
      let boost : ℚ := min ((p : ℚ) * 0.05) 1
      let b1 := b.setEfficiency (b.getEfficiency + boost * 10)
      let b2 := b1.setAesthetic (b1.getAesthetic + boost * 5)
      b2.setCost (b2.getCost + (p : ℚ) * 300)
  | GreenRoof a =>
      let eboost : ℚ := min (a * 0.03) 1
      let aboost : ℚ := min (a * 0.02) 1
      let b1 := b.setEfficiency (b.getEfficiency + eboost * 15)
      let b2 := b1.setAesthetic (b1.getAesthetic + aboost * 10)
      b2.setCost (b2.getCost + a * 200)

/-- Property that a variant's scalar parameter is nonnegative. -/
def nonnegParam : Improvement → Prop
  | SolarPanels p => 0 ≤ p
  | FacadeRenovation p => 0 ≤ p
  | InsulationUpgrade p => 0 ≤ p
  | WindowReplacement p => 0 ≤ p
  | GreenRoof a => 0 ≤ a

instance : DecidablePred nonnegParam := by
  intro i
  cases i <;> simp only [nonnegParam] <;> infer_instance

/-- Exact cost added by one application: `parameter * unit_cost`, read
off the last line of each C++ `apply` override. -/
def costDelta : Improvement → ℚ
  | SolarPanels p => (p : ℚ) * 100
  | FacadeRenovation p => (p : ℚ) * 500
  | InsulationUpgrade p => (p : ℚ) * 400
  | WindowReplacement p => (p : ℚ) * 300
  | GreenRoof a => a * 200

end Improvement

-- Smoke checks against the repository's unit tests.
example :
    (Building.mk 25 75000 50 40 [Improvement.FacadeRenovation 8]).renovate.getCost
      = 75000 + 8 * 500 := by
  norm_num [Building.renovate, Building.renovateLoop, Improvement.apply,
    Building.getCost, Building.setCost, Building.getEfficiency, Building.setEfficiency,
    Building.getAesthetic, Building.setAesthetic]

example :
    (Building.mk 20 50000 80 60 [Improvement.SolarPanels 200]).renovate.getEfficiency
      = 100 := by
  norm_num [Building.renovate, Building.renovateLoop, Improvement.apply,
    Building.getCost, Building.setCost, Building.getEfficiency, Building.setEfficiency,
    Building.getAesthetic, Building.setAesthetic]

/-! ## Helper lemmas -/

theorem Improvement.apply_height (i : Improvement) (b : Building) :
    (i.apply b).height = b.height := by
  cases i <;> rfl

theorem Improvement.apply_plan_eq (i : Improvement) (b : Building) :
    (i.apply b).renovation_plan = b.renovation_plan := by
  cases i <;> rfl

theorem Improvement.apply_cost (i : Improvement) (b : Building) :
    (i.apply b).cost = b.cost + i.costDelta := by
  cases i <;> rfl

theorem Improvement.costDelta_nonneg (i : Improvement) (h : i.nonnegParam) :
    0 ≤ i.costDelta := by
  cases i <;>
    simp only [Improvement.costDelta, Improvement.nonnegParam] at h ⊢ <;>
    exact mul_nonneg (by exact_mod_cast h) (by norm_num)

theorem Improvement.apply_eff_le (i : Improvement) (b : Building)
    (h : b.energy_efficiency ≤ 100) : (i.apply b).energy_efficiency ≤ 100 := by
  cases i <;>
    simp only [Improvement.apply, Building.setEfficiency, Building.setCost,
      Building.setAesthetic, Building.getEfficiency, Building.getAesthetic,
      Building.getCost] <;>
    first
      | exact min_le_right _ _
      | exact h

theorem Improvement.apply_cost_mono (i : Improvement) (b : Building)
    (h : i.nonnegParam) : b.cost ≤ (i.apply b).cost := by
  rw [Improvement.apply_cost]
  exact le_add_of_nonneg_right (Improvement.costDelta_nonneg i h)

theorem Building.renovateLoop_height (l : List Improvement) (b : Building) :
    (Building.renovateLoop l b).height = b.height := by
  induction l generalizing b with
  | nil => rfl
  | cons i rest ih =>
      rw [Building.renovateLoop, ih (i.apply b), Improvement.apply_height]

theorem Building.renovateLoop_eff_le (l : List Improvement) (b : Building)
    (h : b.energy_efficiency ≤ 100) :
    (Building.renovateLoop l b).energy_efficiency ≤ 100 := by
  induction l generalizing b with
  | nil => exact h
  | cons i rest ih => exact ih (i.apply b) (Improvement.apply_eff_le i b h)

theorem Building.renovateLoop_cost_mono (l : List Improvement) (b : Building)
    (h : ∀ i ∈ l, i.nonnegParam) :
    b.cost ≤ (Building.renovateLoop l b).cost := by
  induction l generalizing b with
  | nil => exact le_refl b.cost
  | cons i rest ih =>
      exact le_trans (Improvement.apply_cost_mono i b (h i (by simp)))
        (ih (i.apply b) (fun j hj => h j (by simp [hj])))

theorem Building.renovateLoop_eq_foldl (l : List Improvement) (b : Building) :
    Building.renovateLoop l b = l.foldl (fun s i => i.apply s) b := by
  induction l generalizing b with
  | nil => rfl
  | cons i rest ih => simp [Building.renovateLoop, List.foldl, ih]

/-! ## Claim theorems -/

/-- C1 (counterexample): the claim as stated fails, because the
constructor does not clamp efficiency and `FacadeRenovation` never
touches it.  A building constructed with efficiency 150 and the plan
`[FacadeRenovation 1]` still has efficiency above 100 after the full
`renovate()`. -/
theorem C1_counterexample :
    100 < (Building.mk 0 0 150 0 [Improvement.FacadeRenovation 1]).renovate.getEfficiency := by
  norm_num [Building.renovate, Building.renovateLoop, Improvement.apply,
    Building.getCost, Building.setCost, Building.getEfficiency, Building.setEfficiency,
    Building.getAesthetic, Building.setAesthetic]

/-- C1 (amended): for every building whose efficiency is at most 100 at
the start, after `renovate()` has applied the whole plan - and after any
prefix of applications within it - the efficiency is at most 100. -/
theorem C1_efficiency_invariant (b : Building)
    (h : b.energy_efficiency ≤ 100) :
    b.renovate.energy_efficiency ≤ 100 ∧
    ∀ pre suf, b.renovation_plan = pre ++ suf →
      (Building.renovateLoop pre b).energy_efficiency ≤ 100 := by
  exact ⟨Building.renovateLoop_eff_le b.renovation_plan b h,
    fun pre suf _ => Building.renovateLoop_eff_le pre b h⟩

/-- Witness for C1 at a concrete building. -/
theorem C1_efficiency_invariant_witness :
    (Building.mk 0 0 50 0 [Improvement.SolarPanels 1]).renovate.energy_efficiency ≤ 100 :=
  (C1_efficiency_invariant (Building.mk 0 0 50 0 [Improvement.SolarPanels 1])
    (by norm_num)).1

/-- C2 (counterexample): the claim as stated fails for a negative
parameter: `SolarPanels(-1)` strictly decreases the cost. -/
theorem C2_counterexample :
    ((Improvement.SolarPanels (-1)).apply (Building.mk 0 0 0 0 [])).getCost
      < (Building.mk 0 0 0 0 []).getCost := by
  norm_num [Improvement.apply, Building.getCost, Building.setCost,
    Building.getEfficiency, Building.setEfficiency]

/-- C2 (amended): for every improvement variant with a NONNEGATIVE
parameter, applying it to any building yields a cost at least the prior
cost; hence `renovate()` over a plan of nonnegative-parameter
improvements never decreases cost. -/
theorem C2_cost_monotone :
    (∀ (i : Improvement) (b : Building), i.nonnegParam →
        b.getCost ≤ (i.apply b).getCost) ∧
    (∀ b : Building, (∀ i ∈ b.renovation_plan, i.nonnegParam) →
        b.getCost ≤ b.renovate.getCost) := by
  constructor
  · intro i b h
    exact Improvement.apply_cost_mono i b h
  · intro b h
    exact Building.renovateLoop_cost_mono b.renovation_plan b h

/-- Witness for C2 at a concrete improvement and building. -/
theorem C2_cost_monotone_witness :
    (Building.mk 0 0 0 0 []).getCost
      ≤ ((Improvement.SolarPanels 3).apply (Building.mk 0 0 0 0 [])).getCost :=
  C2_cost_monotone.1 (Improvement.SolarPanels 3) (Building.mk 0 0 0 0 [])
    (by norm_num [Improvement.nonnegParam])

/-- C3 (confirmed): every variant's transcribed `apply` agrees with the
spec's section 4.1 table (boost `min(p * rate, 1.0)`, `boost * magnitude`
added to the listed attributes through the setters, `p * unit_cost` added
to cost, with the stated rates, magnitudes and unit costs). -/
theorem C3_apply_matches_spec_table :
    ∀ (i : Improvement) (b : Building), i.apply b = i.applySpecTable b := by
  intro i b
  cases i <;>
    first
      | rfl
      | (simp only [Improvement.apply, Improvement.applySpecTable]; norm_num)

/-- C4 (confirmed): `renovate()` applies every improvement of the plan
exactly once, in insertion order, with no early exit and no rollback:
its result is the left fold of `apply` over the plan from the initial
state. -/
theorem C4_renovate_is_foldl (b : Building) :
    b.renovate = b.renovation_plan.foldl (fun s i => i.apply s) b :=
  Building.renovateLoop_eq_foldl b.renovation_plan b

/-- C5 (confirmed): the constructor stores an efficiency above 100
unchanged (no clamping at construction), and only the setter imposes the
100 bound. -/
theorem C5_constructor_no_clamp (ht c e a : ℚ) (plan : List Improvement)
    (h : 100 < e) :
    (Building.mk ht c e a plan).getEfficiency = e ∧
    100 < (Building.mk ht c e a plan).getEfficiency ∧
    ∀ e2 : ℚ, ((Building.mk ht c e a plan).setEfficiency e2).getEfficiency ≤ 100 :=
  ⟨rfl, h, fun e2 => min_le_right e2 100⟩

/-- Witness for C5 at efficiency 150. -/
theorem C5_constructor_no_clamp_witness :
    (Building.mk 0 0 150 0 []).getEfficiency = 150 ∧
    ((Building.mk 0 0 150 0 []).setEfficiency 200).getEfficiency ≤ 100 :=
  ⟨(C5_constructor_no_clamp 0 0 150 0 [] (by norm_num)).1,
   (C5_constructor_no_clamp 0 0 150 0 [] (by norm_num)).2.2 200⟩

/-- C6 (confirmed): `SolarPanels(200)` on a building with efficiency 80
and cost 50000 yields efficiency exactly 100 (boost capped at 1.0,
result clamped) and cost exactly 70000. -/
theorem C6_efficiency_cap_and_cost :
    (Building.mk 20 50000 80 60 [Improvement.SolarPanels 200]).renovate.getEfficiency = 100 ∧
    (Building.mk 20 50000 80 60 [Improvement.SolarPanels 200]).renovate.getCost = 70000 := by
  constructor <;>
    norm_num [Building.renovate, Building.renovateLoop, Improvement.apply,
      Building.getCost, Building.setCost, Building.getEfficiency, Building.setEfficiency,
      Building.getAesthetic, Building.setAesthetic]

/-- C7 (confirmed): with an empty renovation plan, `renovate()` leaves
all four attributes exactly unchanged. -/
theorem C7_empty_plan_frame (ht c e a : ℚ) :
    (Building.mk ht c e a []).renovate.getHeight = ht ∧
    (Building.mk ht c e a []).renovate.getCost = c ∧
    (Building.mk ht c e a []).renovate.getEfficiency = e ∧
    (Building.mk ht c e a []).renovate.getAesthetic = a :=
  ⟨rfl, rfl, rfl, rfl⟩

/-- C8 (confirmed): `renovate()` never changes the height, for every
building and every plan: no variant's `apply` writes the height field. -/
theorem C8_height_unchanged (b : Building) :
    b.renovate.getHeight = b.getHeight :=
  Building.renovateLoop_height b.renovation_plan b

/-- C9 (confirmed): every variant's `apply` is a total function on all
parameter values, including zero and negative ones, and processes them
by the same arithmetic with no error branch: for arbitrary `p : ℤ` and
`q : ℚ` the cost moves by exactly `parameter * unit_cost`, degenerate
(negative) deltas included. -/
theorem C9_lenient_total (b : Building) (p : ℤ) (q : ℚ) :
    ((Improvement.SolarPanels p).apply b).getCost = b.getCost + (p : ℚ) * 100 ∧
    ((Improvement.FacadeRenovation p).apply b).getCost = b.getCost + (p : ℚ) * 500 ∧
    ((Improvement.InsulationUpgrade p).apply b).getCost = b.getCost + (p : ℚ) * 400 ∧
    ((Improvement.WindowReplacement p).apply b).getCost = b.getCost + (p : ℚ) * 300 ∧
    ((Improvement.GreenRoof q).apply b).getCost = b.getCost + q * 200 :=
  ⟨rfl, rfl, rfl, rfl, rfl⟩
